import Mathlib

set_option maxRecDepth 40000

/-!
# Verification of the chatgpt-wrapper streaming bridge

Shallow embedding of `src/chatgpt_wrapper/chatgpt.py` (class `ChatGPT`),
focused on the response-assembler polling loop `ask_stream`, the
convenience wrapper `ask`, `new_conversation`, and `_set_title`.

Modelling conventions:

* A Python `str` is modelled as a `List Char` (a sequence of code points),
  so that Python slicing `s[k:]` is `List.drop k s` and `len` is
  `List.length`.
* Library calls made by the loop body (`base64.b64decode`,
  `json.loads`, reading `inner_html`) are external to the repository; the
  combined outcome of reading and decoding the data node on one polling
  tick is supplied by the environment as a `Payload` value.  `Payload`
  distinguishes exactly the outcomes the source code distinguishes:
  any exception during decode / parse / field access (`decodeError`),
  decoded bytes that are empty (`emptyRaw`, the `len(event_raw) > 0`
  guard fails), JSON `null` (`nullEvent`, the `event is not None` guard
  fails), and a well-formed frame carrying `message.id`,
  `conversation_id` and `message.content.parts`.
* Wall-clock time is abstracted per tick: each `TickEnv` carries the
  value of `time.time() - start_time` observed on that tick, and the
  timeout comparison `elapsed > self.timeout` is kept verbatim.
* The DOM is abstracted per tick by two booleans: whether the eof div
  and the stream-data div are present (the two `query_selector_all`
  calls at the top of the loop body).
-/

namespace ChatGPTWrapper

/-- A Python string, as a sequence of code points. -/
abbrev Str := List Char

/-- `ChatGPT.stream_div_id`. -/
def streamDivId : Str := "chatgpt-wrapper-conversation-stream-data".toList

/-- `ChatGPT.eof_div_id`. -/
def eofDivId : Str := "chatgpt-wrapper-conversation-stream-data-eof".toList

/-- The fixed "session not usable" message yielded by `ask_stream` when the
session lacks an `accessToken` (lines 295-297 of the source). -/
def sessionNotUsableMsg : Str :=
  ("Your ChatGPT session is not usable.\n" ++
   "* Run this program with the `install` parameter and log in to ChatGPT.\n" ++
   "* If you think you are already logged in, try running the `session` command.").toList

/-- The fixed fatal message yielded by `ask_stream` when decoding the data
node raises (lines 384-387 of the source). -/
def failedMsg : Str :=
  ("Failed to read response from ChatGPT.  Tips:\n" ++
   " * Try again.  ChatGPT can be flaky.\n" ++
   " * Use the `session` command to refresh your session, and then try again.\n" ++
   " * Restart the program in the `install` mode and make sure you are logged in.").toList

/-- The fixed fallback string returned by `ask` when `ask_stream` produced
zero chunks (line 419 of the source). -/
def fallbackMsg : Str :=
  ("Unusable response produced, maybe login session expired. " ++
   "Try \x27pkill firefox\x27 and \x27chatgpt install\x27").toList

/-- Outcome of reading and decoding the data node's content on one tick:
`decodeError` is any exception raised inside the `try` block (base64
failure, JSON parse failure, missing `message`/`conversation_id`/`parts`
fields); `emptyRaw` is `len(event_raw) == 0`; `nullEvent` is a JSON `null`
(`event is None`); `frame` is a well-shaped event. -/
inductive Payload where
  | decodeError : Payload
  | emptyRaw : Payload
  | nullEvent : Payload
  | frame (messageId : Str) (conversationId : Option Str) (parts : List Str) : Payload
deriving DecidableEq, Repr

/-- `true` exactly on well-shaped frames. -/
def Payload.isFrame : Payload → Bool
  | .frame _ _ _ => true
  | _ => false

/-- What the environment presents to one iteration of the polling loop:
presence of the eof div and the stream-data div, the decode outcome of the
data node's content, and the elapsed wall-clock time
`time.time() - start_time` observed on that tick. -/
structure TickEnv where
  eofPresent : Bool
  streamPresent : Bool
  payload : Payload
  elapsed : Nat
deriving DecidableEq, Repr

/-- The mutable state the loop body reads and writes: the local
`last_event_msg` and the instance fields `self.parent_message_id`,
`self.conversation_id`. -/
structure LoopState where
  lastEventMsg : Str
  parentMessageId : Str
  conversationId : Option Str
deriving DecidableEq, Repr

/-- `"\n".join(event["message"]["content"]["parts"])` when the payload is a
frame, `None` otherwise (`full_event_message` at the end of the `try`
block). -/
def fullEventMessageOf : Payload → Option Str
  | .frame _ _ parts => some (List.intercalate ('\n' :: []) parts)
  | _ => none

/-- Why the loop left its `while True`. -/
inductive ExitReason where
  | eofSeen : ExitReason
  | timedOut : ExitReason
  | failed : ExitReason
deriving DecidableEq, Repr

/-- Control outcome of one loop iteration: `spin` is the `continue` taken
when the data node is absent (no sleep, no timeout check), `next` falls
through to `sleep(0.2)` and iterates again, `halt r` is a `break`. -/
inductive Control where
  | spin : Control
  | next : Control
  | halt (r : ExitReason) : Control
deriving DecidableEq, Repr

/-- Result of one iteration of the loop body: the values yielded on that
tick, the updated state, and the control outcome. -/
structure TickResult where
  yielded : List Str
  state : LoopState
  control : Control
deriving DecidableEq, Repr

/-- One iteration of the `while True` body of `ask_stream`
(source lines 366-401), as a function of the state and the tick
environment.  Faithfully: the data-node absence check `continue`s before
anything else; a decode exception yields the fixed message and breaks; a
frame updates `parent_message_id` and `conversation_id`, computes the
delta `full_event_message[len(last_event_msg):]`, updates
`last_event_msg` and yields the delta unconditionally; the loop breaks
when the eof div was present or when `elapsed > timeout` while
`full_event_message is None`. -/
def tick (timeout : Nat) (st : LoopState) (env : TickEnv) : TickResult :=
  if env.streamPresent = false then
    ⟨[], st, .spin⟩
  else
    match env.payload with
    | .decodeError => ⟨[failedMsg], st, .halt .failed⟩
    | .emptyRaw =>
        if env.eofPresent then ⟨[], st, .halt .eofSeen⟩
        else if timeout < env.elapsed then ⟨[], st, .halt .timedOut⟩
        else ⟨[], st, .next⟩
    | .nullEvent =>
        if env.eofPresent then ⟨[], st, .halt .eofSeen⟩
        else if timeout < env.elapsed then ⟨[], st, .halt .timedOut⟩
        else ⟨[], st, .next⟩
    | .frame mid cid parts =>
        let full := List.intercalate ('\n' :: []) parts
        let chunk := full.drop st.lastEventMsg.length
        let st2 : LoopState := ⟨full, mid, cid⟩
        if env.eofPresent then ⟨[chunk], st2, .halt .eofSeen⟩
        else ⟨[chunk], st2, .next⟩

/-- Run the polling loop over a finite trace of tick environments.
Returns the chunks yielded in order, the final state, and `some r` when
the loop broke with reason `r`; `none` means the trace was exhausted with
the loop still running. -/
def runLoop (timeout : Nat) (st : LoopState) : List TickEnv → List Str × LoopState × Option ExitReason
  | [] => ([], st, none)
  | env :: rest =>
      let t := tick timeout st env
      match t.control with
      | .halt r => (t.yielded, t.state, some r)
      | _ =>
          let res := runLoop timeout t.state rest
          (t.yielded ++ res.1, res.2.1, res.2.2)

/-- Per-tick deltas of a sequence of cumulative messages, starting from
`last`: each element is `m[len(previous):]`. -/
def deltaChunks (last : Str) : List Str → List Str
  | [] => []
  | m :: ms => m.drop last.length :: deltaChunks m ms

/-- `extendsChain last msgs` holds when each message in `msgs` extends the
previous one (and the first extends `last`) as a string prefix:
`m[:len(previous)] == previous` along the whole sequence. -/
def extendsChain (last : Str) : List Str → Bool
  | [] => true
  | m :: ms => (m.take last.length == last) && extendsChain m ms

/-- The key looked up in the session mapping. -/
def accessTokenKey : Str := "accessToken".toList

/-- `RENDER_MODELS` (source lines 19-23). -/
def renderModels : List (Str × Str) :=
  [("default".toList, "text-davinci-002-render-sha".toList),
   ("legacy-paid".toList, "text-davinci-002-render-paid".toList),
   ("legacy-free".toList, "text-davinci-002-render".toList)]

/-- Dictionary lookup `RENDER_MODELS[key]` (as an `Option`). -/
def lookupModel (k : Str) : Option Str :=
  (renderModels.find? (fun kv => kv.1 == k)).map (fun kv => kv.2)

/-- The instance fields of `ChatGPT` the modelled operations touch. -/
structure ChatState where
  parentMessageId : Str
  conversationId : Option Str
  conversationTitleSet : Option Bool
  session : List (Str × Str)
  model : Str
  timeout : Nat
deriving DecidableEq, Repr

/-- `key in dict` on the session mapping. -/
def hasKey (k : Str) (s : List (Str × Str)) : Bool :=
  s.any (fun kv => kv.1 == k)

/-- Python truthiness of `self.conversation_id` (an optional string:
`None` and the empty string are falsy). -/
def truthyStrOpt : Option Str → Bool
  | none => false
  | some s => !s.isEmpty

/-- Python truthiness of `self.conversation_title_set` (initially `None`,
set to `True` on success). -/
def truthyBoolOpt : Option Bool → Bool
  | none => false
  | some b => b

/-- `ChatGPT._set_title` (source lines 239-253).  The guard is kept
verbatim: `not self.conversation_id or self.conversation_id and
self.conversation_title_set` returns early.  Otherwise one POST to the
`gen_title` endpoint is issued; `ok` is the response outcome supplied by
the environment, and on success `conversation_title_set` becomes `True`.
Returns the new state and the number of HTTP requests issued. -/
def setTitle (ok : Bool) (st : ChatState) : ChatState × Nat :=
  if (!truthyStrOpt st.conversationId) ||
      (truthyStrOpt st.conversationId && truthyBoolOpt st.conversationTitleSet) then
    (st, 0)
  else if ok then
    ({ st with conversationTitleSet := some true }, 1)
  else
    (st, 1)

/-- Repeated invocations of `_set_title` with the given response outcomes;
returns the final state and the total number of HTTP requests issued. -/
def runSetTitles (st : ChatState) : List Bool → ChatState × Nat
  | [] => (st, 0)
  | ok :: rest =>
      let r1 := setTitle ok st
      let r2 := runSetTitles r1.1 rest
      (r2.1, r1.2 + r2.2)

/-- The Request Envelope built by `ask_stream` (source lines 300-313). -/
structure Envelope where
  messageId : Str
  role : Str
  contentType : Str
  parts : List Str
  model : Option Str
  conversation_id : Option Str
  parent_message_id : Str
  action : Str
deriving DecidableEq, Repr

/-- Construction of the Request Envelope from the current state
(`request = {...}` in `ask_stream`). -/
def buildRequest (newMessageId : Str) (prompt : Str) (st : ChatState) : Envelope :=
  { messageId := newMessageId
    role := "user".toList
    contentType := "text".toList
    parts := [prompt]
    model := lookupModel st.model
    conversation_id := st.conversationId
    parent_message_id := st.parentMessageId
    action := "next".toList }

/-- Host-visible side effects of `ask_stream` other than yielding chunks:
injecting the streaming script (the one POST to the conversation
endpoint), removing a div by id (`_cleanup_divs`), and invoking
`_set_title`. -/
inductive HostAction where
  | injectStreamScript : HostAction
  | removeDiv (id : Str) : HostAction
  | setTitleInvoked : HostAction
deriving DecidableEq, Repr

/-- Environment of one `ask_stream` call: the session `refresh_session`
would install if the current session is empty, the fresh uuid for the
outgoing message, the outcome of the `gen_title` POST, and the trace of
polling-tick environments. -/
structure AskEnv where
  refreshedSession : List (Str × Str)
  newMessageId : Str
  titleOk : Bool
  trace : List TickEnv
deriving Repr

/-- Observable result of one `ask_stream` call. -/
structure AskResult where
  chunks : List Str
  conversationPosts : Nat
  envelope : Option Envelope
  finalState : ChatState
  exitReason : Option ExitReason
  actions : List HostAction
deriving Repr

/-- `ChatGPT.ask_stream` (source lines 288-404): refresh the session if
empty; if the session lacks `accessToken`, yield the fixed message and
return without issuing any conversation request; otherwise build the
envelope, inject the streaming script (one POST to the conversation
endpoint) and run the polling loop; if the loop terminated, remove both
divs and invoke `_set_title`.  `conversationPosts` counts HTTP requests
to the conversation endpoint; `exitReason = none` means the loop was
still running when the trace ended (the generator never returned). -/
def askStream (env : AskEnv) (st : ChatState) (prompt : Str) : AskResult :=
  let session := if st.session.isEmpty then env.refreshedSession else st.session
  let st0 := { st with session := session }
  if hasKey accessTokenKey session = false then
    { chunks := [sessionNotUsableMsg]
      conversationPosts := 0
      envelope := none
      finalState := st0
      exitReason := none
      actions := [] }
  else
    let request := buildRequest env.newMessageId prompt st0
    let res := runLoop st0.timeout ⟨[], st0.parentMessageId, st0.conversationId⟩ env.trace
    let st1 := { st0 with parentMessageId := res.2.1.parentMessageId,
                          conversationId := res.2.1.conversationId }
    { chunks := res.1
      conversationPosts := 1
      envelope := some request
      finalState := if res.2.2.isSome then (setTitle env.titleOk st1).1 else st1
      exitReason := res.2.2
      actions := .injectStreamScript ::
        (if res.2.2.isSome then
          [.removeDiv streamDivId, .removeDiv eofDivId, .setTitleInvoked]
         else []) }

/-- `ChatGPT.ask` (source lines 406-420): collect the chunk sequence; if
non-empty, `reduce(operator.add, response)`; otherwise the fixed fallback
string. -/
def ask (env : AskEnv) (st : ChatState) (message : Str) : Str :=
  match (askStream env st message).chunks with
  | [] => fallbackMsg
  | c :: rest => rest.foldl (fun a b => a ++ b) c

/-- `ChatGPT.new_conversation` (source lines 422-425); `freshId` is the
uuid generated by `str(uuid.uuid4())`. -/
def newConversation (freshId : Str) (st : ChatState) : ChatState :=
  { st with parentMessageId := freshId
            conversationId := none
            conversationTitleSet := none }

/-- The last element of a message sequence, or `d` when it is empty. -/
def lastMsg (d : Str) : List Str → Str
  | [] => d
  | m :: ms => lastMsg m ms

/-- A session holding an access token, used by the closed concrete
checks. -/
def wSession : List (Str × Str) := [(accessTokenKey, "tok".toList)]

/-- A bridge state with a usable session, used by the closed concrete
checks. -/
def wChat : ChatState :=
  ⟨"p0".toList, some "c0".toList, none, wSession, "default".toList, 60⟩

/-- A bridge state whose non-empty session lacks `accessToken`. -/
def wChatNoToken : ChatState :=
  ⟨"p0".toList, none, none, [("foo".toList, "bar".toList)], "default".toList, 60⟩

/-- An `ask_stream` environment with an empty polling trace. -/
def wAskEnv : AskEnv := ⟨[], "n1".toList, true, []⟩

/-- An `ask_stream` environment whose single polling tick sees both divs
with an empty decoded payload, so the loop exits via eof at once. -/
def wAskEnvEof : AskEnv := ⟨[], "n1".toList, true, [⟨true, true, Payload.emptyRaw, 0⟩]⟩

/-! ## Helper lemmas -/

lemma append_drop_of_take_eq {l m : Str} (h : m.take l.length = l) :
    l ++ m.drop l.length = m := by
  conv_rhs => rw [← List.take_append_drop l.length m]
  rw [h]

lemma flatten_deltaChunks : ∀ (last : Str) (msgs : List Str),
    extendsChain last msgs = true →
    last ++ (deltaChunks last msgs).flatten = lastMsg last msgs := by
  intro last msgs
  induction msgs generalizing last with
  | nil => intro h; simp [deltaChunks, lastMsg]
  | cons m ms ih =>
      intro h
      rw [extendsChain, Bool.and_eq_true, beq_iff_eq] at h
      obtain ⟨h1, h2⟩ := h
      simp only [deltaChunks, lastMsg, List.flatten_cons]
      rw [← List.append_assoc, append_drop_of_take_eq h1, ih m h2]

lemma runLoop_frames (timeout : Nat) :
    ∀ (envs : List TickEnv) (st : LoopState),
    (∀ e ∈ envs, e.streamPresent = true ∧ e.eofPresent = false ∧ e.payload.isFrame = true) →
    (runLoop timeout st envs).1
      = deltaChunks st.lastEventMsg
          (envs.map (fun e => (fullEventMessageOf e.payload).getD []))
    ∧ (runLoop timeout st envs).2.2 = none := by
  intro envs
  induction envs with
  | nil => intro st h; simp [runLoop, deltaChunks]
  | cons e rest ih =>
      intro st h
      obtain ⟨hs, he, hf⟩ := h e (List.mem_cons_self e rest)
      have hrest := ih (tick timeout st e).state
        (fun x hx => h x (List.mem_cons_of_mem _ hx))
      cases hp : e.payload with
      | decodeError => rw [hp] at hf; exact absurd hf (by decide)
      | emptyRaw => rw [hp] at hf; exact absurd hf (by decide)
      | nullEvent => rw [hp] at hf; exact absurd hf (by decide)
      | frame mid cid parts =>
          have htick : tick timeout st e =
              ⟨[(List.intercalate ('\n' :: []) parts).drop st.lastEventMsg.length],
               ⟨List.intercalate ('\n' :: []) parts, mid, cid⟩, Control.next⟩ := by
            simp [tick, hp, hs, he]
          rw [htick] at hrest
          have hfull : fullEventMessageOf e.payload
              = some (List.intercalate ('\n' :: []) parts) := by
            rw [hp]; rfl
          constructor
          · simp only [runLoop, htick]
            simp only [List.map_cons, hfull, Option.getD_some, deltaChunks]
            simp [hrest.1]
          · simp only [runLoop, htick]
            simp [hrest.2]

lemma foldl_append_eq_flatten (rest : List Str) :
    ∀ (c : Str), rest.foldl (fun a b => a ++ b) c = c ++ rest.flatten := by
  induction rest with
  | nil => intro c; simp
  | cons m t ih => intro c; simp [List.foldl_cons, ih, List.append_assoc]

lemma setTitle_blocked_of_titleSet (ok : Bool) (st : ChatState)
    (h : st.conversationTitleSet = some true) :
    setTitle ok st = (st, 0) := by
  rw [setTitle]
  cases hc : truthyStrOpt st.conversationId <;>
    simp [truthyBoolOpt, h]

lemma runSetTitles_of_titleSet : ∀ (oks : List Bool) (st : ChatState),
    st.conversationTitleSet = some true → runSetTitles st oks = (st, 0) := by
  intro oks
  induction oks with
  | nil => intro st h; rfl
  | cons ok rest ih =>
      intro st h
      simp [runSetTitles, setTitle_blocked_of_titleSet ok st h, ih st h]

lemma runSetTitles_allOk_le_one : ∀ (oks : List Bool) (st : ChatState),
    (∀ b ∈ oks, b = true) → (runSetTitles st oks).2 ≤ 1 := by
  intro oks
  induction oks with
  | nil => intro st h; simp [runSetTitles]
  | cons ok rest ih =>
      intro st h
      have hok : ok = true := h ok (List.mem_cons_self _ _)
      subst hok
      by_cases hb : ((!truthyStrOpt st.conversationId) ||
          (truthyStrOpt st.conversationId && truthyBoolOpt st.conversationTitleSet)) = true
      · have hset : setTitle true st = (st, 0) := by
          rw [setTitle, if_pos hb]
        simp only [runSetTitles, hset]
        simpa using ih st (fun b hbm => h b (List.mem_cons_of_mem _ hbm))
      · have hset : setTitle true st
            = ({ st with conversationTitleSet := some true }, 1) := by
          rw [setTitle, if_neg hb]
          rfl
        simp only [runSetTitles, hset]
        have hz := runSetTitles_of_titleSet rest
          { st with conversationTitleSet := some true } rfl
        simp [hz]

/-! ## Claim theorems -/

/-- C1: over any finite run of the polling loop in which every tick
decodes a frame (the stream div is present, no eof, every payload a
well-shaped frame) and the newline-joined parts of each frame extend the
previous one as a string prefix, the concatenation of all chunks yielded
by `ask_stream` equals the final frame's `full_event_message`. -/
theorem claim1_chunks_concat_to_final (timeout : Nat) (p : Str) (c : Option Str)
    (envs : List TickEnv)
    (hframes : ∀ e ∈ envs,
      e.streamPresent = true ∧ e.eofPresent = false ∧ e.payload.isFrame = true)
    (hchain : extendsChain []
      (envs.map (fun e => (fullEventMessageOf e.payload).getD [])) = true) :
    ((runLoop timeout ⟨[], p, c⟩ envs).1).flatten
      = lastMsg [] (envs.map (fun e => (fullEventMessageOf e.payload).getD [])) := by
  rw [(runLoop_frames timeout envs ⟨[], p, c⟩ hframes).1]
  have h := flatten_deltaChunks [] _ hchain
  simpa using h

/-- Witness for C1: frames with parts `["Hi"]` then `["Hi there"]` yield
chunks concatenating to `"Hi there"`. -/
theorem claim1_witness :
    ((runLoop 60 ⟨[], "p".toList, none⟩
        [⟨false, true, .frame "m1".toList (some "c".toList) ["Hi".toList], 0⟩,
         ⟨false, true, .frame "m2".toList (some "c".toList) ["Hi there".toList], 1⟩]).1).flatten
      = "Hi there".toList := by
  have h := claim1_chunks_concat_to_final 60 "p".toList none
    [⟨false, true, .frame "m1".toList (some "c".toList) ["Hi".toList], 0⟩,
     ⟨false, true, .frame "m2".toList (some "c".toList) ["Hi there".toList], 1⟩]
    (by decide) (by decide)
  simpa using h

/-- C2 (corrected): if the data node never appears, every iteration of the
polling loop takes the `continue` branch, which skips the timeout check
entirely; the loop yields zero chunks, leaves the state untouched, and
never terminates — it does not exit at `timeout` seconds.  (The eof check
is also skipped by the `continue`, so this holds whether or not the eof
node appears.) -/
theorem claim2_amended_no_data_never_exits (timeout : Nat) (st : LoopState)
    (envs : List TickEnv)
    (h : ∀ e ∈ envs, e.streamPresent = false ∧ e.eofPresent = false) :
    (runLoop timeout st envs).1 = []
    ∧ (runLoop timeout st envs).2.2 = none
    ∧ (runLoop timeout st envs).2.1 = st := by
  induction envs with
  | nil => exact ⟨rfl, rfl, rfl⟩
  | cons e rest ih =>
      obtain ⟨hs, _⟩ := h e (List.mem_cons_self e rest)
      have htick : tick timeout st e = ⟨[], st, Control.spin⟩ := by
        simp [tick, hs]
      have hrest := ih (fun x hx => h x (List.mem_cons_of_mem _ hx))
      simp only [runLoop, htick]
      simpa using hrest

/-- Counterexample for C2 as stated: with `timeout = 1`, a trace of ten
polling ticks on which the data node and the eof node are absent and the
observed elapsed time is `1000` (far past `timeout` plus any polling
granularity) leaves the loop still running (no exit reason), instead of
having terminated at the timeout. -/
theorem claim2_counterexample :
    (runLoop 1 ⟨[], "p".toList, none⟩
        (List.replicate 10 ⟨false, false, Payload.emptyRaw, 1000⟩)).2.2 = none
    ∧ (runLoop 1 ⟨[], "p".toList, none⟩
        (List.replicate 10 ⟨false, false, Payload.emptyRaw, 1000⟩)).1 = [] := by
  decide

/-- Witness for C2's amended statement at a concrete trace. -/
theorem claim2_witness :
    (runLoop 1 ⟨[], "q".toList, none⟩
        [⟨false, false, Payload.emptyRaw, 7⟩, ⟨false, false, Payload.emptyRaw, 9⟩]).1 = []
    ∧ (runLoop 1 ⟨[], "q".toList, none⟩
        [⟨false, false, Payload.emptyRaw, 7⟩, ⟨false, false, Payload.emptyRaw, 9⟩]).2.2 = none := by
  have h := claim2_amended_no_data_never_exits 1 ⟨[], "q".toList, none⟩
    [⟨false, false, Payload.emptyRaw, 7⟩, ⟨false, false, Payload.emptyRaw, 9⟩]
    (by decide)
  exact ⟨h.1, h.2.1⟩

/-- C3: on a tick where the data node is present and no decode exception
occurs, the loop body exits by timeout exactly when the eof node is
absent, no valid frame was decoded (`full_event_message is None`) and the
elapsed time exceeds the timeout; and on any tick where a valid frame was
decoded and the eof node is absent, the loop continues regardless of the
elapsed time. -/
theorem claim3_timeout_only_when_no_frame (timeout : Nat) (st : LoopState)
    (env : TickEnv) (hs : env.streamPresent = true)
    (hp : env.payload ≠ Payload.decodeError) :
    ((tick timeout st env).control = Control.halt ExitReason.timedOut ↔
      env.eofPresent = false ∧ fullEventMessageOf env.payload = none
        ∧ timeout < env.elapsed)
    ∧ ((fullEventMessageOf env.payload).isSome = true → env.eofPresent = false →
        (tick timeout st env).control = Control.next) := by
  cases hpl : env.payload with
  | decodeError => exact absurd hpl hp
  | emptyRaw =>
      cases he : env.eofPresent <;>
        rcases Nat.lt_or_ge timeout env.elapsed with ht | ht <;>
          simp [tick, hs, hpl, he, fullEventMessageOf, ht, Nat.not_lt_of_ge]
  | nullEvent =>
      cases he : env.eofPresent <;>
        rcases Nat.lt_or_ge timeout env.elapsed with ht | ht <;>
          simp [tick, hs, hpl, he, fullEventMessageOf, ht, Nat.not_lt_of_ge]
  | frame mid cid parts =>
      cases he : env.eofPresent <;>
        simp [tick, hs, hpl, he, fullEventMessageOf]

/-- Witness for C3: a tick with the data node present, an empty decoded
payload, no eof, and elapsed time past the timeout exits by timeout. -/
theorem claim3_witness :
    (tick 1 ⟨[], "p".toList, none⟩ ⟨false, true, Payload.emptyRaw, 5⟩).control
      = Control.halt ExitReason.timedOut :=
  (claim3_timeout_only_when_no_frame 1 ⟨[], "p".toList, none⟩
      ⟨false, true, Payload.emptyRaw, 5⟩ (by decide) (by decide)).1.mpr
    (by decide)

/-- Counterexample for C4 as stated: with `last_event_msg = "Hi"` and a
decoded frame whose joined parts are again `"Hi"`, the delta is empty,
yet the loop body still yields it (the yielded list is `[""]`, not `[]`):
the source has no non-emptiness guard before `yield chunk`. -/
theorem claim4_counterexample :
    ¬ (tick 60 ⟨"Hi".toList, "p".toList, none⟩
        ⟨false, true, Payload.frame "m".toList (some "c".toList) ["Hi".toList], 0⟩).yielded = []
    ∧ (tick 60 ⟨"Hi".toList, "p".toList, none⟩
        ⟨false, true, Payload.frame "m".toList (some "c".toList) ["Hi".toList], 0⟩).yielded
      = [([] : Str)] := by
  decide

/-- C4 (corrected): on each polling tick where a frame is successfully
decoded, the delta chunk `full_event_message[len(last_event_msg):]` is
yielded unconditionally — also when it is empty — and `last_event_msg` is
updated to `full_event_message`. -/
theorem claim4_amended_chunk_always_yielded (timeout : Nat) (st : LoopState)
    (env : TickEnv) (mid : Str) (cid : Option Str) (parts : List Str)
    (hs : env.streamPresent = true)
    (hp : env.payload = Payload.frame mid cid parts) :
    (tick timeout st env).yielded
      = [(List.intercalate ('\n' :: []) parts).drop st.lastEventMsg.length]
    ∧ (tick timeout st env).state.lastEventMsg
      = List.intercalate ('\n' :: []) parts := by
  cases he : env.eofPresent <;> simp [tick, hs, hp, he]

/-- Witness for C4's amended statement: growing `"Hi"` to `"Hi there"`
yields exactly the suffix `" there"` and updates the cumulative text. -/
theorem claim4_witness :
    (tick 60 ⟨"Hi".toList, "p".toList, none⟩
        ⟨false, true, Payload.frame "m".toList (some "c".toList) ["Hi there".toList], 0⟩).yielded
      = [" there".toList]
    ∧ (tick 60 ⟨"Hi".toList, "p".toList, none⟩
        ⟨false, true, Payload.frame "m".toList (some "c".toList) ["Hi there".toList], 0⟩).state.lastEventMsg
      = "Hi there".toList := by
  have h := claim4_amended_chunk_always_yielded 60 ⟨"Hi".toList, "p".toList, none⟩
    ⟨false, true, Payload.frame "m".toList (some "c".toList) ["Hi there".toList], 0⟩
    "m".toList (some "c".toList) ["Hi there".toList] (by decide) (by decide)
  exact ⟨by rw [h.1]; decide, by rw [h.2]; decide⟩

/-- C5: on a tick where the data node was read but its content fails
decoding (any exception in the `try` block: base64, JSON parse, or
missing fields), the loop body yields exactly the one fixed failure
message and breaks with the `failed` reason, independently of the eof
node and of the elapsed time; conversely, the `failed` exit arises only
from such a decode error, so it is the sole abnormal way out of the
loop. -/
theorem claim5_decode_error_fatal (timeout : Nat) (st : LoopState)
    (env : TickEnv) (hs : env.streamPresent = true) :
    (env.payload = Payload.decodeError →
      (tick timeout st env).yielded = [failedMsg]
        ∧ (tick timeout st env).control = Control.halt ExitReason.failed)
    ∧ ((tick timeout st env).control = Control.halt ExitReason.failed →
        env.payload = Payload.decodeError) := by
  cases hpl : env.payload with
  | decodeError => simp [tick, hs, hpl]
  | emptyRaw =>
      cases he : env.eofPresent <;>
        rcases Nat.lt_or_ge timeout env.elapsed with ht | ht <;>
          simp [tick, hs, hpl, he, ht, Nat.not_lt_of_ge]
  | nullEvent =>
      cases he : env.eofPresent <;>
        rcases Nat.lt_or_ge timeout env.elapsed with ht | ht <;>
          simp [tick, hs, hpl, he, ht, Nat.not_lt_of_ge]
  | frame mid cid parts =>
      cases he : env.eofPresent <;> simp [tick, hs, hpl, he]

/-- Witness for C5: a decode failure on a tick where the eof node is
present and the elapsed time is past the timeout still yields the fixed
message and exits with the `failed` reason. -/
theorem claim5_witness :
    (tick 1 ⟨[], "p".toList, none⟩ ⟨true, true, Payload.decodeError, 99⟩).yielded
      = [failedMsg]
    ∧ (tick 1 ⟨[], "p".toList, none⟩ ⟨true, true, Payload.decodeError, 99⟩).control
      = Control.halt ExitReason.failed :=
  (claim5_decode_error_fatal 1 ⟨[], "p".toList, none⟩
      ⟨true, true, Payload.decodeError, 99⟩ (by decide)).1 (by decide)

/-- C6: when the (non-empty) session mapping lacks `accessToken`, `ask`
returns the fixed "session not usable" message, and no HTTP request to
the conversation endpoint is issued — the streaming script is never
injected. -/
theorem claim6_no_token_no_request (env : AskEnv) (st : ChatState)
    (message : Str) (h1 : st.session ≠ [])
    (h2 : hasKey accessTokenKey st.session = false) :
    ask env st message = sessionNotUsableMsg
    ∧ (askStream env st message).conversationPosts = 0
    ∧ HostAction.injectStreamScript ∉ (askStream env st message).actions := by
  have hne : st.session.isEmpty = false := by
    rcases hs : st.session with _ | ⟨a, t⟩
    · exact absurd hs h1
    · rfl
  have hchunks : (askStream env st message).chunks = [sessionNotUsableMsg] := by
    simp [askStream, hne, h2]
  refine ⟨?_, ?_, ?_⟩
  · simp [ask, hchunks]
  · simp [askStream, hne, h2]
  · simp [askStream, hne, h2]

/-- Witness for C6 at a concrete session `{"foo": "bar"}`. -/
theorem claim6_witness :
    ask wAskEnv wChatNoToken "ping".toList = sessionNotUsableMsg
    ∧ (askStream wAskEnv wChatNoToken "ping".toList).conversationPosts = 0
    ∧ HostAction.injectStreamScript ∉ (askStream wAskEnv wChatNoToken "ping".toList).actions :=
  claim6_no_token_no_request wAskEnv wChatNoToken "ping".toList
    (by decide) (by decide)

/-- C7: `ask` returns the in-order concatenation of all chunks produced by
`ask_stream`, and returns the fixed fallback string exactly on the branch
where `ask_stream` produced zero chunks. -/
theorem claim7_ask_concatenates (env : AskEnv) (st : ChatState)
    (message : Str) :
    ask env st message =
      (if (askStream env st message).chunks.isEmpty then fallbackMsg
       else ((askStream env st message).chunks).flatten) := by
  rcases h : (askStream env st message).chunks with _ | ⟨c, rest⟩
  · simp [ask, h]
  · simp [ask, h, foldl_append_eq_flatten]

/-- C8: after `new_conversation()`, `conversation_id` is `None`, the title
flag is cleared, and `parent_message_id` is the freshly generated uuid —
distinct from every previously held parent id whenever the generated uuid
is new — and the next `ask_stream` builds its Request Envelope with
`conversation_id = null` and that fresh `parent_message_id`. -/
theorem claim8_new_conversation_fresh (st : ChatState) (u : Str)
    (prior : List Str) (env : AskEnv) (prompt : Str)
    (hfresh : u ∉ prior) (h1 : st.session ≠ [])
    (h2 : hasKey accessTokenKey st.session = true) :
    (newConversation u st).conversationId = none
    ∧ (newConversation u st).conversationTitleSet = none
    ∧ (newConversation u st).parentMessageId = u
    ∧ (∀ p ∈ prior, (newConversation u st).parentMessageId ≠ p)
    ∧ ∃ e, (askStream env (newConversation u st) prompt).envelope = some e
        ∧ e.conversation_id = none ∧ e.parent_message_id = u := by
  refine ⟨rfl, rfl, rfl, ?_, ?_⟩
  · intro p hp heq
    have hupeq : u = p := heq
    subst hupeq
    exact hfresh hp
  · refine ⟨buildRequest env.newMessageId prompt
      { newConversation u st with session := st.session }, ?_, rfl, rfl⟩
    simp [askStream, newConversation, h1, h2]

/-- Witness for C8 at a concrete state, prior id list and fresh uuid. -/
theorem claim8_witness :
    (newConversation "u1".toList wChat).conversationId = none
    ∧ (newConversation "u1".toList wChat).conversationTitleSet = none
    ∧ (newConversation "u1".toList wChat).parentMessageId = "u1".toList
    ∧ (∀ p ∈ ["p0".toList], (newConversation "u1".toList wChat).parentMessageId ≠ p)
    ∧ ∃ e, (askStream wAskEnv (newConversation "u1".toList wChat) "hello".toList).envelope
          = some e
        ∧ e.conversation_id = none ∧ e.parent_message_id = "u1".toList :=
  claim8_new_conversation_fresh wChat "u1".toList ["p0".toList] wAskEnv
    "hello".toList (by decide) (by decide) (by decide)

/-- C9: whenever the polling loop of `ask_stream` terminates — via eof,
timeout, or the fatal decode error — the call goes on to remove both DOM
Mailbox nodes (`_cleanup_divs`) and to invoke the title-assignment step
(`_set_title`): its action trace is exactly the script injection followed
by the two div removals and the `_set_title` invocation. -/
theorem claim9_cleanup_after_exit (env : AskEnv) (st : ChatState)
    (prompt : Str) (r : ExitReason)
    (hex : (askStream env st prompt).exitReason = some r) :
    (askStream env st prompt).actions
      = [HostAction.injectStreamScript, HostAction.removeDiv streamDivId,
         HostAction.removeDiv eofDivId, HostAction.setTitleInvoked] := by
  by_cases hk : hasKey accessTokenKey
      (if st.session = [] then env.refreshedSession else st.session) = false
  · simp [askStream, hk] at hex
  · have hk2 : hasKey accessTokenKey
        (if st.session = [] then env.refreshedSession else st.session) = true := by
      revert hk
      cases hasKey accessTokenKey
        (if st.session = [] then env.refreshedSession else st.session) <;> simp
    simp [askStream, hk2] at hex ⊢
    simp [hex]

/-- Witness for C9: a trace whose single tick sees the eof node makes the
loop exit, and the actions end with both removals and the title call. -/
theorem claim9_witness :
    (askStream wAskEnvEof wChat "hi".toList).actions
      = [HostAction.injectStreamScript, HostAction.removeDiv streamDivId,
         HostAction.removeDiv eofDivId, HostAction.setTitleInvoked] :=
  claim9_cleanup_after_exit wAskEnvEof wChat "hi".toList ExitReason.eofSeen
    (by decide)

/-- C10: `_set_title` issues no HTTP request when `conversation_id` is
falsy or the title flag is already truthy; a successful issued request
sets the flag to `True`; once the flag is `True`, any further sequence of
`_set_title` invocations issues zero requests and leaves the state
unchanged; and over any sequence of invocations whose requests all
succeed, at most one request is issued in total. -/
theorem claim10_title_once (st : ChatState) (ok : Bool) (oks : List Bool) :
    ((truthyStrOpt st.conversationId = false
        ∨ truthyBoolOpt st.conversationTitleSet = true) →
      setTitle ok st = (st, 0))
    ∧ ((setTitle true st).2 = 1 →
        (setTitle true st).1.conversationTitleSet = some true)
    ∧ (st.conversationTitleSet = some true → runSetTitles st oks = (st, 0))
    ∧ ((∀ b ∈ oks, b = true) → (runSetTitles st oks).2 ≤ 1) := by
  refine ⟨?_, ?_, fun h => runSetTitles_of_titleSet oks st h,
    fun h => runSetTitles_allOk_le_one oks st h⟩
  · rintro (h | h)
    · rw [setTitle, if_pos]
      simp [h]
    · rw [setTitle, if_pos]
      cases hc : truthyStrOpt st.conversationId <;> simp [h, hc]
  · intro h
    by_cases hb : ((!truthyStrOpt st.conversationId) ||
        (truthyStrOpt st.conversationId && truthyBoolOpt st.conversationTitleSet)) = true
    · rw [setTitle, if_pos hb] at h
      simp at h
    · rw [setTitle, if_neg hb]
      rfl

/-- Witness for C10: two consecutive successful `_set_title` invocations
on a titled-less conversation issue at most one request in total. -/
theorem claim10_witness :
    (runSetTitles wChat [true, true]).2 ≤ 1 :=
  (claim10_title_once wChat true [true, true]).2.2.2 (by decide)

end ChatGPTWrapper
